import Mathlib

/-!
Verification of the waSCC lattice message bus and router.

Shallow embedding of `src/bus/lattice.rs` and `src/router.rs`. External
collaborators (the NATS transport, the codec, the crossbeam channels, the
process environment) are modelled as explicit function parameters, and the
effects a handler performs (channel sends, channel receives, replies
published via the message's reply facility, transport calls) are recorded in
explicit traces. Rust panics (`unwrap` on an `Err`/`None`) are modelled by a
`panicked` flag in the trace.
-/

namespace WasccHost

/-- The process environment: a partial map from variable names to values,
modelling `std::env::var` (a `none` result covers `VarError`). -/
abbrev Env := String → Option String

/-- Modelled from the spec: `Invocation` is defined in the host module, which
is not among the bus sources. The spec describes it as an immutable record
carrying an origin identifier, target subject, operation name, payload bytes,
and a self-signing antiforgery artifact. The artifact's cryptographic content
is external (the signing scheme is out of scope), so only the observable
verdict of `validate_antiforgery` is kept: `none` means the check passes,
`some e` means it fails with message `e`. -/
structure Invocation where
  id : String
  origin : String
  target : String
  operation : String
  msg : List Nat
  antiforgery_fault : Option String
deriving DecidableEq, Repr

/-- Modelled from the spec: the verdict of the external antiforgery check on
an invocation, as a Rust `Result<(), E>` with `E` rendered as its display
string. -/
def Invocation.validate_antiforgery (i : Invocation) : Except String Unit :=
  match i.antiforgery_fault with
  | some e => Except.error e
  | none => Except.ok ()

/-- Modelled from the spec: `InvocationResponse` is defined in the host
module, not among the bus sources. It carries either a success payload or an
error message, bound to the originating invocation's identity. -/
structure InvocationResponse where
  invocation_id : String
  msg : List Nat
  error : Option String
deriving DecidableEq, Repr

/-- Modelled from the spec: the `InvocationResponse::error(inv, msg)`
constructor, synthesizing an error-valued response bound to the originating
invocation's identity. -/
def InvocationResponse.mk_error (inv : Invocation) (m : String) : InvocationResponse :=
  ⟨inv.id, [], some m⟩

/-- An opaque crossbeam channel endpoint. Cloning a Rust channel end shares
the underlying channel, so a clone is the same handle value. -/
abbrev ChanHandle := Nat

/-! ## Config (`get_env`, `get_timeout`, `get_credsfile`, connection options) -/

def LATTICE_HOST_KEY : String := "LATTICE_HOST"

def DEFAULT_LATTICE_HOST : String := "127.0.0.1"

def LATTICE_RPC_TIMEOUT_KEY : String := "LATTICE_RPC_TIMEOUT_MILLIS"

def DEFAULT_LATTICE_RPC_TIMEOUT_MILLIS : Nat := 500

def LATTICE_CREDSFILE_KEY : String := "LATTICE_CREDS_FILE"

/-- `get_env` from `lattice.rs`: the variable's value, with the default
substituted when the variable is unset or its value is empty. -/
def get_env (env : Env) (var default_ : String) : String :=
  match env var with
  | some val => if val.isEmpty then default_ else val
  | none => default_

/-- Rust's `str::parse::<u64>` (`FromStr for u64`): an optional leading `+`
sign, then one or more ASCII digits, no other characters; overflow past
`u64::MAX` is an error. -/
def parse_u64 (s : String) : Option Nat :=
  let ds : List Char :=
    match s.data with
    | '+' :: rest => rest
    | cs => cs
  if ds.isEmpty then none
  else if ds.all (fun c => c.isDigit) then
    let v := ds.foldl (fun acc c => acc * 10 + (c.toNat - 48)) 0
    if v < 2 ^ 64 then some v else none
  else none

/-- `get_timeout` from `lattice.rs`, in milliseconds: the parsed value of
`LATTICE_RPC_TIMEOUT_MILLIS`, with 500 substituted when the variable is
unset, empty, or unparseable (`val.parse().unwrap_or(default)`). -/
def get_timeout (env : Env) : Nat :=
  match env LATTICE_RPC_TIMEOUT_KEY with
  | some val =>
    if val.isEmpty then DEFAULT_LATTICE_RPC_TIMEOUT_MILLIS
    else (parse_u64 val).getD DEFAULT_LATTICE_RPC_TIMEOUT_MILLIS
  | none => DEFAULT_LATTICE_RPC_TIMEOUT_MILLIS

/-- `get_credsfile` from `lattice.rs`: `std::env::var(LATTICE_CREDSFILE_KEY).ok()`. -/
def get_credsfile (env : Env) : Option String :=
  env LATTICE_CREDSFILE_KEY

/-- The authentication mode of the transport connection options. -/
inductive ConnAuth where
  | anonymous
  | credentials (path : String)
deriving DecidableEq, Repr

/-- The observable content of `nats::ConnectionOptions` as used by
`get_connection`: the authentication mode and the client display name. -/
structure ConnectionOptions where
  auth : ConnAuth
  name : Option String
deriving DecidableEq, Repr

/-- `nats::ConnectionOptions::new()`: unauthenticated (anonymous) options. -/
def ConnectionOptions.new : ConnectionOptions :=
  ⟨ConnAuth.anonymous, none⟩

/-- `nats::ConnectionOptions::with_credentials(path)`. -/
def ConnectionOptions.with_credentials (path : String) : ConnectionOptions :=
  ⟨ConnAuth.credentials path, none⟩

/-- `opts.with_name(name)`. -/
def ConnectionOptions.with_name (o : ConnectionOptions) (n : String) : ConnectionOptions :=
  { o with name := some n }

/-- The options-building part of `get_connection` from `lattice.rs`: with a
configured credentials file the options are built from those credentials,
otherwise the unauthenticated options object is used; then the fixed display
name is set. (The actual `connect` call is the external transport.) -/
def get_connection_opts (env : Env) : ConnectionOptions :=
  let opts :=
    match get_credsfile env with
    | some creds => ConnectionOptions.with_credentials creds
    | none => ConnectionOptions.new
  opts.with_name "waSCC Lattice"

/-- The host argument passed to `connect` in `get_connection`. -/
def get_connection_host (env : Env) : String :=
  get_env env LATTICE_HOST_KEY DEFAULT_LATTICE_HOST

/-! ## Association-list model of `HashMap`

`DistributedBus.subs` and `Router.routes` are `HashMap`s. They are modelled
as association lists whose observable behaviour (`get`, `insert` replacing
any previous binding, `remove`) matches the `HashMap` operations used. -/

def alist_lookup {α : Type} : List (String × α) → String → Option α
  | [], _ => none
  | (k', v) :: rest, k => if k' = k then some v else alist_lookup rest k

def alist_remove {α : Type} (l : List (String × α)) (k : String) : List (String × α) :=
  l.filter (fun p => !(p.1 == k))

def alist_insert {α : Type} (l : List (String × α)) (k : String) (v : α) : List (String × α) :=
  (k, v) :: alist_remove l k

/-! ## Router (`src/router.rs`) -/

/-- `InvokerPair`: one worker's channel endpoints,
`(Sender<Invocation>, Receiver<InvocationResponse>)`. Cloning yields the same
handles (clones share the underlying channels). -/
abbrev InvokerPair := ChanHandle × ChanHandle

/-- `Router` from `src/router.rs`: a mapping from subject id to `InvokerPair`. -/
structure Router where
  routes : List (String × InvokerPair)
deriving DecidableEq, Repr

/-- `Router::add_route`: `self.routes.insert(id, (inv_s, resp_r))` —
inserts or silently replaces the entry for `id`. -/
def Router.add_route (r : Router) (id : String) (inv_s : ChanHandle) (resp_r : ChanHandle) : Router :=
  ⟨alist_insert r.routes id (inv_s, resp_r)⟩

/-- `Router::get_pair`: a clone of the stored pair when present, else `None`.
It takes the router by shared reference (`&self`), so it cannot mutate the
table; the embedding reflects this by returning only the `Option`. -/
def Router.get_pair (r : Router) (id : String) : Option InvokerPair :=
  alist_lookup r.routes id

/-! ## The per-message invocation handler (`handle_invocation`) -/

/-- One observable effect of a handler run, in order of occurrence:
a value sent on the captured invocation-sender, a value received from the
captured response-receiver, or a response serialized and published via the
message's reply facility (`msg.respond`). -/
inductive BusEvent where
  | sent (i : Invocation)
  | received (r : InvocationResponse)
  | replied (r : InvocationResponse)
deriving DecidableEq, Repr

/-- The external collaborators of one handler run: the codec, the reply
facility of the received message, and the outcomes of the two channel
operations (`Sender::send` fails only when the channel is disconnected;
`Receiver::recv` yields the worker's response or a disconnection error). -/
structure HandlerCtx where
  deser_inv : List Nat → Except String Invocation
  ser_resp : InvocationResponse → Except String (List Nat)
  respond : List Nat → Except String Unit
  send_result : Except String Unit
  recv_result : Except String InvocationResponse

/-- The trace of one handler run: whether an `unwrap` panicked (the panic
then escapes the handler closure into the transport's delivery thread), and
the effects performed before that point. -/
structure HandlerTrace where
  panicked : Bool
  events : List BusEvent
deriving DecidableEq, Repr

/-- The invocations a handler run sent on the invocation-sender. -/
def HandlerTrace.sent_invocations (t : HandlerTrace) : List Invocation :=
  t.events.filterMap (fun e => match e with | BusEvent.sent i => some i | _ => none)

/-- The responses a handler run received from the response-receiver. -/
def HandlerTrace.received_responses (t : HandlerTrace) : List InvocationResponse :=
  t.events.filterMap (fun e => match e with | BusEvent.received r => some r | _ => none)

/-- The responses a handler run published via the message's reply facility. -/
def HandlerTrace.replies (t : HandlerTrace) : List InvocationResponse :=
  t.events.filterMap (fun e => match e with | BusEvent.replied r => some r | _ => none)

/-- `invocation_from_msg` from `lattice.rs`:
`deserialize(&msg.data).unwrap()` — the deserialized invocation, or a panic
when the body fails to deserialize. -/
def invocation_from_msg (ctx : HandlerCtx) (data : List Nat) : Except String Invocation :=
  ctx.deser_inv data

/-- `handle_invocation` from `lattice.rs`, invoked for every message received
on a subscribed subject. Deserializes the body (panicking on failure), runs
the antiforgery check; on failure synthesizes an error response and publishes
it via the reply facility without touching the worker channels; on success
sends the invocation on the invocation-sender, receives one response from the
response-receiver, and publishes it. Every fallible step is `unwrap`ped in
the source, so each failure is a panic after the effects already performed. -/
def handle_invocation (ctx : HandlerCtx) (data : List Nat) : HandlerTrace :=
  match invocation_from_msg ctx data with
  | Except.error _ => ⟨true, []⟩
  | Except.ok inv =>
    match inv.validate_antiforgery with
    | Except.error e =>
      let inv_r := InvocationResponse.mk_error inv ("Antiforgery check failure: " ++ e)
      match ctx.ser_resp inv_r with
      | Except.error _ => ⟨true, []⟩
      | Except.ok bs =>
        match ctx.respond bs with
        | Except.error _ => ⟨true, []⟩
        | Except.ok _ => ⟨false, [BusEvent.replied inv_r]⟩
    | Except.ok _ =>
      match ctx.send_result with
      | Except.error _ => ⟨true, []⟩
      | Except.ok _ =>
        match ctx.recv_result with
        | Except.error _ => ⟨true, [BusEvent.sent inv]⟩
        | Except.ok inv_r =>
          match ctx.ser_resp inv_r with
          | Except.error _ => ⟨true, [BusEvent.sent inv, BusEvent.received inv_r]⟩
          | Except.ok bs =>
            match ctx.respond bs with
            | Except.error _ => ⟨true, [BusEvent.sent inv, BusEvent.received inv_r]⟩
            | Except.ok _ =>
              ⟨false, [BusEvent.sent inv, BusEvent.received inv_r, BusEvent.replied inv_r]⟩

/-! ## `DistributedBus.invoke` -/

/-- The external collaborators of `invoke`: the codec and the transport's
`request_timeout(subject, payload, deadline)` request/reply primitive. -/
structure InvokeCtx where
  ser_inv : Invocation → Except String (List Nat)
  request_timeout : String → List Nat → Nat → Except String (List Nat)
  deser_resp : List Nat → Except String InvocationResponse

/-- The trace of one `invoke` call: its result and the transport requests it
issued, each recorded as (subject, payload bytes, deadline in ms). -/
structure InvokeTrace where
  result : Except String InvocationResponse
  requests : List (String × List Nat × Nat)

/-- `DistributedBus::invoke` from `lattice.rs`: serialize the invocation,
issue one `request_timeout` on the transport with deadline `req_timeout`,
deserialize the reply. Each failure propagates with `?`; there is no retry. -/
def invoke (ctx : InvokeCtx) (req_timeout : Nat) (subject : String) (inv : Invocation) : InvokeTrace :=
  match ctx.ser_inv inv with
  | Except.error e => ⟨Except.error e, []⟩
  | Except.ok bs =>
    match ctx.request_timeout subject bs req_timeout with
    | Except.error e => ⟨Except.error e, [(subject, bs, req_timeout)]⟩
    | Except.ok rd =>
      match ctx.deser_resp rd with
      | Except.error e => ⟨Except.error e, [(subject, bs, req_timeout)]⟩
      | Except.ok ir => ⟨Except.ok ir, [(subject, bs, req_timeout)]⟩

/-! ## `DistributedBus.subscribe` / `DistributedBus.unsubscribe` -/

/-- A `nats::subscription::Handler` as stored in the bus's subscription
table: the transport's subscription token together with the channel ends the
handler closure captured. -/
structure SubHandle where
  token : Nat
  sender : ChanHandle
  receiver : ChanHandle
deriving DecidableEq, Repr

/-- The bus's subscription table, `subs: HashMap<String, Handler>`. -/
abbrev Subs := List (String × SubHandle)

/-- The trace of one `subscribe` call: its result, the updated table, and the
`queue_subscribe` calls made on the transport, each recorded as
(subject, queue group name). -/
structure SubscribeTrace where
  result : Except String Unit
  subs : Subs
  calls : List (String × String)

/-- `DistributedBus::subscribe` from `lattice.rs`:
`queue_subscribe(subject, subject)` (the queue group name is the subject),
attach the handler closure capturing clones of the two channel ends, and
insert the handle into the table under `subject` (`HashMap::insert`, which
silently replaces any previous binding). A transport error propagates with
`?` and leaves the table unchanged. -/
def subscribe (queue_subscribe : String → String → Except String Nat)
    (subs : Subs) (subject : String) (sender receiver : ChanHandle) : SubscribeTrace :=
  match queue_subscribe subject subject with
  | Except.error e => ⟨Except.error e, subs, [(subject, subject)]⟩
  | Except.ok tok =>
    ⟨Except.ok (), alist_insert subs subject ⟨tok, sender, receiver⟩, [(subject, subject)]⟩

/-- The trace of one `unsubscribe` call: its result, the updated table, and
the handles whose cancellation was requested from the transport. -/
structure UnsubTrace where
  result : Except String Unit
  subs : Subs
  cancelled : List SubHandle

/-- `DistributedBus::unsubscribe` from `lattice.rs`: remove the subject's
entry from the table; when one was present, ask the transport to cancel it
(`sub.unsubscribe()?`), propagating a cancel error after the removal; absence
is not an error. -/
def unsubscribe (cancel : SubHandle → Except String Unit)
    (subs : Subs) (subject : String) : UnsubTrace :=
  match alist_lookup subs subject with
  | none => ⟨Except.ok (), subs, []⟩
  | some h =>
    let subs' := alist_remove subs subject
    match cancel h with
    | Except.error e => ⟨Except.error e, subs', [h]⟩
    | Except.ok _ => ⟨Except.ok (), subs', [h]⟩

/-! ## Sample environments and contexts (concrete instances for evaluation) -/

/-- A well-signed sample invocation. -/
def sample_inv : Invocation := ⟨"i-1", "hostA", "svc.echo", "Echo", [1, 2, 3], none⟩

/-- A sample invocation whose antiforgery check fails with message
`"bad signature"`. -/
def sample_bad_inv : Invocation := ⟨"i-2", "hostB", "svc.echo", "Echo", [4], some "bad signature"⟩

/-- A sample worker response. -/
def sample_resp : InvocationResponse := ⟨"i-1", [9], none⟩

/-- A handler context whose message deserializes to `sample_inv` and whose
external operations all succeed. -/
def ctx_ok : HandlerCtx :=
  ⟨fun _ => Except.ok sample_inv, fun _ => Except.ok [0],
   fun _ => Except.ok (), Except.ok (), Except.ok sample_resp⟩

/-- A handler context whose message deserializes to `sample_bad_inv` and
whose external operations all succeed. -/
def ctx_bad : HandlerCtx :=
  ⟨fun _ => Except.ok sample_bad_inv, fun _ => Except.ok [0],
   fun _ => Except.ok (), Except.ok (), Except.ok sample_resp⟩

/-- A handler context whose message body fails to deserialize. -/
def ctx_garbage : HandlerCtx :=
  ⟨fun _ => Except.error "invalid msgpack", fun _ => Except.ok [0],
   fun _ => Except.ok (), Except.ok (), Except.ok sample_resp⟩

/-- An invoke context whose codec and transport all succeed. -/
def ictx_ok : InvokeCtx :=
  ⟨fun _ => Except.ok [7], fun _ _ _ => Except.ok [8], fun _ => Except.ok sample_resp⟩

/-- An empty process environment. -/
def env_unset : Env := fun _ => none

/-- An environment with an unparseable RPC timeout value. -/
def env_junk : Env :=
  fun k => if k = "LATTICE_RPC_TIMEOUT_MILLIS" then some "abc" else none

/-- An environment with a parseable RPC timeout, a host, and a creds file. -/
def env_good : Env :=
  fun k =>
    if k = "LATTICE_RPC_TIMEOUT_MILLIS" then some "750"
    else if k = "LATTICE_HOST" then some "nats.example"
    else if k = "LATTICE_CREDS_FILE" then some "/tmp/creds"
    else none

/-- A sample subscription handle. -/
def sample_handle : SubHandle := ⟨11, 1, 2⟩

/-- A one-entry subscription table. -/
def sample_subs : Subs := [("svc.echo", sample_handle)]

/-- A transport cancel operation that always succeeds. -/
def cancel_ok : SubHandle → Except String Unit := fun _ => Except.ok ()

/-- A transport cancel operation that always fails. -/
def cancel_fail : SubHandle → Except String Unit := fun _ => Except.error "io"

/-- A transport `queue_subscribe` returning token 21. -/
def qs_21 : String → String → Except String Nat := fun _ _ => Except.ok 21

/-- A transport `queue_subscribe` returning token 22. -/
def qs_22 : String → String → Except String Nat := fun _ _ => Except.ok 22

/-! ## Helper lemmas about the association-list map -/

theorem alist_lookup_remove_self {α : Type} (l : List (String × α)) (k : String) :
    alist_lookup (alist_remove l k) k = none := by
  induction l with
  | nil => rfl
  | cons p rest ih =>
    by_cases h : p.1 = k
    · simpa [alist_remove, List.filter_cons, h] using ih
    · simpa [alist_remove, List.filter_cons, h, alist_lookup] using ih

theorem alist_lookup_remove_ne {α : Type} (l : List (String × α)) (k k' : String)
    (h : k' ≠ k) : alist_lookup (alist_remove l k) k' = alist_lookup l k' := by
  induction l with
  | nil => rfl
  | cons p rest ih =>
    by_cases hp : p.1 = k
    · have h1 : alist_remove (p :: rest) k = alist_remove rest k := by
        simp [alist_remove, List.filter_cons, hp]
      have hk : p.1 ≠ k' := by
        rw [hp]; exact fun hkk => h hkk.symm
      rw [h1, ih]
      simp [alist_lookup, hk]
    · have h1 : alist_remove (p :: rest) k = p :: alist_remove rest k := by
        simp [alist_remove, List.filter_cons, hp]
      rw [h1]
      by_cases hp' : p.1 = k'
      · simp [alist_lookup, hp']
      · simp only [alist_lookup, hp', if_false]
        exact ih

theorem alist_lookup_insert_self {α : Type} (l : List (String × α)) (k : String) (v : α) :
    alist_lookup (alist_insert l k v) k = some v := by
  simp [alist_insert, alist_lookup]

theorem alist_lookup_insert_ne {α : Type} (l : List (String × α)) (k k' : String) (v : α)
    (h : k' ≠ k) : alist_lookup (alist_insert l k v) k' = alist_lookup l k' := by
  have : k ≠ k' := fun hk => h hk.symm
  simp [alist_insert, alist_lookup, this, alist_lookup_remove_ne l k k' h]

theorem string_append_assoc (a b c : String) : a ++ b ++ c = a ++ (b ++ c) := by
  apply String.ext
  simp [String.data_append, List.append_assoc]

/-! ## Claim theorems -/

/-- Claim C1: for every received message whose invocation fails
`validate_antiforgery` (and whose serialization and reply publication
succeed, as they are external operations), the handler publishes via the
message's reply facility exactly the synthesized `InvocationResponse` whose
error message begins with `"Antiforgery check failure:"`, and nothing is sent
on the captured invocation-sender. -/
theorem antiforgery_rejected_reply_no_forward
    (ctx : HandlerCtx) (data : List Nat) (inv : Invocation) (e : String) (bs : List Nat)
    (hdeser : ctx.deser_inv data = Except.ok inv)
    (hforge : inv.validate_antiforgery = Except.error e)
    (hser : ctx.ser_resp (InvocationResponse.mk_error inv ("Antiforgery check failure: " ++ e)) = Except.ok bs)
    (hresp : ctx.respond bs = Except.ok ()) :
    (handle_invocation ctx data).replies =
      [InvocationResponse.mk_error inv ("Antiforgery check failure: " ++ e)]
    ∧ (∀ r ∈ (handle_invocation ctx data).replies,
        ∃ rest, r.error = some ("Antiforgery check failure:" ++ rest))
    ∧ (handle_invocation ctx data).sent_invocations = [] := by
  have ht : handle_invocation ctx data =
      ⟨false, [BusEvent.replied (InvocationResponse.mk_error inv ("Antiforgery check failure: " ++ e))]⟩ := by
    simp [handle_invocation, invocation_from_msg, hdeser, hforge, hser, hresp]
  refine ⟨?_, ?_, ?_⟩
  · rw [ht]; rfl
  · intro r hr
    rw [ht] at hr
    simp [HandlerTrace.replies] at hr
    subst hr
    refine ⟨" " ++ e, ?_⟩
    have : ("Antiforgery check failure: " ++ e) = "Antiforgery check failure:" ++ (" " ++ e) := by
      rw [← string_append_assoc]
      rfl
    simp [InvocationResponse.mk_error, this]
  · rw [ht]; rfl

/-- Claim C1 witness: evaluation at `ctx_bad`, whose message carries
`sample_bad_inv`. -/
theorem antiforgery_rejected_reply_no_forward_witness :
    (handle_invocation ctx_bad []).replies =
      [InvocationResponse.mk_error sample_bad_inv ("Antiforgery check failure: " ++ "bad signature")]
    ∧ (∀ r ∈ (handle_invocation ctx_bad []).replies,
        ∃ rest, r.error = some ("Antiforgery check failure:" ++ rest))
    ∧ (handle_invocation ctx_bad []).sent_invocations = [] :=
  antiforgery_rejected_reply_no_forward ctx_bad [] sample_bad_inv "bad signature" [0]
    rfl rfl rfl rfl

/-- Claim C2: for every received message that deserializes to an invocation,
given that the external collaborators succeed (the channel send and receive,
the codec's serialize, the reply publication), the handler publishes exactly
one response: the synthesized error response on antiforgery failure, or, on
success, exactly the one response obtained by first sending the invocation on
the invocation-sender and then receiving exactly one response from the
response-receiver — the full event trace is determined in that order. -/
theorem handler_single_reply
    (ctx : HandlerCtx) (data : List Nat) (inv : Invocation) (wr : InvocationResponse)
    (hdeser : ctx.deser_inv data = Except.ok inv)
    (hsend : ctx.send_result = Except.ok ())
    (hrecv : ctx.recv_result = Except.ok wr)
    (hser : ∀ r, ∃ bs, ctx.ser_resp r = Except.ok bs)
    (hresp : ∀ bs, ctx.respond bs = Except.ok ()) :
    (handle_invocation ctx data).replies.length = 1
    ∧ (∀ e, inv.validate_antiforgery = Except.error e →
        (handle_invocation ctx data).events =
          [BusEvent.replied (InvocationResponse.mk_error inv ("Antiforgery check failure: " ++ e))])
    ∧ (inv.validate_antiforgery = Except.ok () →
        (handle_invocation ctx data).events =
          [BusEvent.sent inv, BusEvent.received wr, BusEvent.replied wr]) := by
  cases hv : inv.validate_antiforgery with
  | error e =>
    obtain ⟨bs, hbs⟩ := hser (InvocationResponse.mk_error inv ("Antiforgery check failure: " ++ e))
    have ht : handle_invocation ctx data =
        ⟨false, [BusEvent.replied (InvocationResponse.mk_error inv ("Antiforgery check failure: " ++ e))]⟩ := by
      simp [handle_invocation, invocation_from_msg, hdeser, hv, hbs, hresp bs]
    refine ⟨by rw [ht]; rfl, ?_, ?_⟩
    · intro e' he'
      injection he' with h
      subst h
      rw [ht]
    · intro hok
      exact Except.noConfusion hok
  | ok u =>
    cases u
    obtain ⟨bs, hbs⟩ := hser wr
    have ht : handle_invocation ctx data =
        ⟨false, [BusEvent.sent inv, BusEvent.received wr, BusEvent.replied wr]⟩ := by
      simp [handle_invocation, invocation_from_msg, hdeser, hv, hsend, hrecv, hbs, hresp bs]
    refine ⟨by rw [ht]; rfl, ?_, ?_⟩
    · intro e' he'
      exact Except.noConfusion he'
    · intro _
      rw [ht]

/-- Claim C2 witness: evaluation at `ctx_ok` (antiforgery passes) — the
trace is send, receive, reply, with exactly one published response. -/
theorem handler_single_reply_witness :
    (handle_invocation ctx_ok []).replies.length = 1
    ∧ (∀ e, sample_inv.validate_antiforgery = Except.error e →
        (handle_invocation ctx_ok []).events =
          [BusEvent.replied (InvocationResponse.mk_error sample_inv ("Antiforgery check failure: " ++ e))])
    ∧ (sample_inv.validate_antiforgery = Except.ok () →
        (handle_invocation ctx_ok []).events =
          [BusEvent.sent sample_inv, BusEvent.received sample_resp, BusEvent.replied sample_resp]) :=
  handler_single_reply ctx_ok [] sample_inv sample_resp rfl rfl rfl
    (fun _ => ⟨[0], rfl⟩) (fun _ => rfl)

/-- Claim C3 (code behaviour at the failing input): when the message body
fails to deserialize, `invocation_from_msg` calls
`deserialize(&msg.data).unwrap()`, so the handler panics before performing
any effect — the message is indeed not forwarded and no response is
attempted, but the panic escapes the handler boundary into the transport's
delivery thread, contradicting the claim that no panic escapes. -/
theorem deser_failure_panics_handler :
    handle_invocation ctx_garbage [] = ⟨true, []⟩
    ∧ invocation_from_msg ctx_garbage [] = Except.error "invalid msgpack" :=
  ⟨rfl, rfl⟩

/-- Claim C4: `invoke(subject, inv)` issues at most one transport request
(never retries); every request carries the serialized invocation, the given
subject, and a deadline equal to the configured timeout; it returns the
deserialized reply on success, and an error exactly when serialization, the
transport request, or reply deserialization fails. -/
theorem invoke_one_request_result
    (ctx : InvokeCtx) (t : Nat) (s : String) (inv : Invocation) :
    (invoke ctx t s inv).requests.length ≤ 1
    ∧ (∀ q ∈ (invoke ctx t s inv).requests, q.1 = s ∧ q.2.2 = t)
    ∧ (∀ e, ctx.ser_inv inv = Except.error e →
        (invoke ctx t s inv).result = Except.error e ∧ (invoke ctx t s inv).requests = [])
    ∧ (∀ bs, ctx.ser_inv inv = Except.ok bs →
        (invoke ctx t s inv).requests = [(s, bs, t)])
    ∧ (∀ bs e, ctx.ser_inv inv = Except.ok bs → ctx.request_timeout s bs t = Except.error e →
        (invoke ctx t s inv).result = Except.error e)
    ∧ (∀ bs rd e, ctx.ser_inv inv = Except.ok bs → ctx.request_timeout s bs t = Except.ok rd →
        ctx.deser_resp rd = Except.error e → (invoke ctx t s inv).result = Except.error e)
    ∧ (∀ bs rd ir, ctx.ser_inv inv = Except.ok bs → ctx.request_timeout s bs t = Except.ok rd →
        ctx.deser_resp rd = Except.ok ir → (invoke ctx t s inv).result = Except.ok ir) := by
  cases hs : ctx.ser_inv inv with
  | error e0 =>
    have ht : invoke ctx t s inv = ⟨Except.error e0, []⟩ := by
      simp [invoke, hs]
    rw [ht]
    refine ⟨by simp, by simp, ?_, ?_, ?_, ?_, ?_⟩
    · intro e he; injection he with h; subst h; exact ⟨rfl, rfl⟩
    · intro bs hbs; exact Except.noConfusion hbs
    · intro bs e hbs; exact Except.noConfusion hbs
    · intro bs rd e hbs; exact Except.noConfusion hbs
    · intro bs rd ir hbs; exact Except.noConfusion hbs
  | ok bs0 =>
    cases hr : ctx.request_timeout s bs0 t with
    | error e0 =>
      have ht : invoke ctx t s inv = ⟨Except.error e0, [(s, bs0, t)]⟩ := by
        simp [invoke, hs, hr]
      rw [ht]
      refine ⟨by simp, by simp, ?_, ?_, ?_, ?_, ?_⟩
      · intro e he; exact Except.noConfusion he
      · intro bs hbs; injection hbs with h; subst h; rfl
      · intro bs e hbs hreq
        injection hbs with h; subst h
        rw [hr] at hreq; injection hreq with h'; subst h'; rfl
      · intro bs rd e hbs hreq
        injection hbs with h; subst h
        rw [hr] at hreq; exact Except.noConfusion hreq
      · intro bs rd ir hbs hreq
        injection hbs with h; subst h
        rw [hr] at hreq; exact Except.noConfusion hreq
    | ok rd0 =>
      cases hd : ctx.deser_resp rd0 with
      | error e0 =>
        have ht : invoke ctx t s inv = ⟨Except.error e0, [(s, bs0, t)]⟩ := by
          simp [invoke, hs, hr, hd]
        rw [ht]
        refine ⟨by simp, by simp, ?_, ?_, ?_, ?_, ?_⟩
        · intro e he; exact Except.noConfusion he
        · intro bs hbs; injection hbs with h; subst h; rfl
        · intro bs e hbs hreq
          injection hbs with h; subst h
          rw [hr] at hreq; exact Except.noConfusion hreq
        · intro bs rd e hbs hreq hde
          injection hbs with h; subst h
          rw [hr] at hreq; injection hreq with h'; subst h'
          rw [hd] at hde; injection hde with h''; subst h''; rfl
        · intro bs rd ir hbs hreq hde
          injection hbs with h; subst h
          rw [hr] at hreq; injection hreq with h'; subst h'
          rw [hd] at hde; exact Except.noConfusion hde
      | ok ir0 =>
        have ht : invoke ctx t s inv = ⟨Except.ok ir0, [(s, bs0, t)]⟩ := by
          simp [invoke, hs, hr, hd]
        rw [ht]
        refine ⟨by simp, by simp, ?_, ?_, ?_, ?_, ?_⟩
        · intro e he; exact Except.noConfusion he
        · intro bs hbs; injection hbs with h; subst h; rfl
        · intro bs e hbs hreq
          injection hbs with h; subst h
          rw [hr] at hreq; exact Except.noConfusion hreq
        · intro bs rd e hbs hreq hde
          injection hbs with h; subst h
          rw [hr] at hreq; injection hreq with h'; subst h'
          rw [hd] at hde; exact Except.noConfusion hde
        · intro bs rd ir hbs hreq hde
          injection hbs with h; subst h
          rw [hr] at hreq; injection hreq with h'; subst h'
          rw [hd] at hde; injection hde with h''; subst h''; rfl

/-- Claim C4 witness: evaluation at `ictx_ok` with timeout 500 on subject
`"svc.echo"`. -/
theorem invoke_one_request_result_witness :
    (invoke ictx_ok 500 "svc.echo" sample_inv).requests = [("svc.echo", [7], 500)]
    ∧ (invoke ictx_ok 500 "svc.echo" sample_inv).result = Except.ok sample_resp :=
  ⟨(invoke_one_request_result ictx_ok 500 "svc.echo" sample_inv).2.2.2.1 [7] rfl,
   (invoke_one_request_result ictx_ok 500 "svc.echo" sample_inv).2.2.2.2.2.2 [7] [8] sample_resp
     rfl rfl rfl⟩

/-- Claim C5: an unset, empty, or unparseable `LATTICE_RPC_TIMEOUT_MILLIS`
yields the 500 ms default (an unparseable value falls back rather than
failing), a parseable value `v` yields `v` ms; an unset or empty
`LATTICE_HOST` yields `127.0.0.1`, any other value is used as given. -/
theorem config_fallbacks (env : Env) :
    (env LATTICE_RPC_TIMEOUT_KEY = none → get_timeout env = 500)
    ∧ (env LATTICE_RPC_TIMEOUT_KEY = some "" → get_timeout env = 500)
    ∧ (∀ s, env LATTICE_RPC_TIMEOUT_KEY = some s → parse_u64 s = none → get_timeout env = 500)
    ∧ (∀ s v, env LATTICE_RPC_TIMEOUT_KEY = some s → parse_u64 s = some v → get_timeout env = v)
    ∧ (env LATTICE_HOST_KEY = none → get_connection_host env = "127.0.0.1")
    ∧ (env LATTICE_HOST_KEY = some "" → get_connection_host env = "127.0.0.1")
    ∧ (∀ s, env LATTICE_HOST_KEY = some s → s ≠ "" → get_connection_host env = s) := by
  refine ⟨?_, ?_, ?_, ?_, ?_, ?_, ?_⟩
  · intro h
    simp [get_timeout, h, DEFAULT_LATTICE_RPC_TIMEOUT_MILLIS]
  · intro h
    have hemp : ("" : String).isEmpty = true := by decide
    simp [get_timeout, h, hemp, DEFAULT_LATTICE_RPC_TIMEOUT_MILLIS]
  · intro s h hp
    simp only [get_timeout, h]
    by_cases he : s.isEmpty
    · simp [he, DEFAULT_LATTICE_RPC_TIMEOUT_MILLIS]
    · simp [he, hp, DEFAULT_LATTICE_RPC_TIMEOUT_MILLIS]
  · intro s v h hp
    simp only [get_timeout, h]
    by_cases he : s.isEmpty
    · exfalso
      rw [String.isEmpty_iff] at he
      subst he
      exact Option.noConfusion ((show parse_u64 "" = none from rfl).symm.trans hp)
    · simp [he, hp]
  · intro h
    simp [get_connection_host, get_env, h, DEFAULT_LATTICE_HOST]
  · intro h
    have hemp : ("" : String).isEmpty = true := by decide
    simp [get_connection_host, get_env, h, hemp, DEFAULT_LATTICE_HOST]
  · intro s h hs
    have he : ¬(s.isEmpty = true) := by
      simpa [String.isEmpty_iff] using hs
    simp [get_connection_host, get_env, h, he]

/-- Claim C5 witness: the timeout is 500 ms under an unparseable value and
750 ms under `"750"`; the host is `127.0.0.1` when unset and the given value
otherwise. -/
theorem config_fallbacks_witness :
    get_timeout env_junk = 500
    ∧ get_timeout env_good = 750
    ∧ get_connection_host env_unset = "127.0.0.1"
    ∧ get_connection_host env_good = "nats.example" :=
  ⟨(config_fallbacks env_junk).2.2.1 "abc" (by decide) (by decide),
   (config_fallbacks env_good).2.2.2.1 "750" 750 (by decide) (by decide),
   (config_fallbacks env_unset).2.2.2.2.1 rfl,
   (config_fallbacks env_good).2.2.2.2.2.2 "nats.example" (by decide) (by decide)⟩

/-- Claim C6: `unsubscribe` succeeds when no subscription exists for the
subject (absence is not an error); two consecutive `unsubscribe` calls both
return ok (given that the transport's cancel succeeds on the stored handle,
if any); when an entry is present it is removed from the subscription table
and the transport is asked to cancel exactly that handle. -/
theorem unsubscribe_absent_ok_idempotent
    (cancel : SubHandle → Except String Unit) (subs : Subs) (s : String)
    (hc : ∀ h, alist_lookup subs s = some h → cancel h = Except.ok ()) :
    (unsubscribe cancel subs s).result = Except.ok ()
    ∧ (unsubscribe cancel (unsubscribe cancel subs s).subs s).result = Except.ok ()
    ∧ (alist_lookup subs s = none →
        (unsubscribe cancel subs s).subs = subs ∧ (unsubscribe cancel subs s).cancelled = [])
    ∧ (∀ h, alist_lookup subs s = some h →
        (unsubscribe cancel subs s).subs = alist_remove subs s
        ∧ (unsubscribe cancel subs s).cancelled = [h]) := by
  cases hl : alist_lookup subs s with
  | none =>
    have ht : unsubscribe cancel subs s = ⟨Except.ok (), subs, []⟩ := by
      simp [unsubscribe, hl]
    refine ⟨by simp [ht], ?_, fun _ => ⟨by simp [ht], by simp [ht]⟩,
      fun h hh => Option.noConfusion hh⟩
    rw [ht]
    simp [unsubscribe, hl]
  | some h0 =>
    have hch := hc h0 hl
    have ht : unsubscribe cancel subs s = ⟨Except.ok (), alist_remove subs s, [h0]⟩ := by
      simp [unsubscribe, hl, hch]
    have hl2 := alist_lookup_remove_self subs s
    refine ⟨by simp [ht], ?_, fun hh => Option.noConfusion hh, ?_⟩
    · rw [ht]
      simp [unsubscribe, hl2]
    · intro h hh
      injection hh with h'
      subst h'
      exact ⟨by simp [ht], by simp [ht]⟩

/-- Claim C6 witness: evaluation on a one-entry table with a succeeding
transport cancel. -/
theorem unsubscribe_absent_ok_idempotent_witness :
    (unsubscribe cancel_ok sample_subs "svc.echo").result = Except.ok ()
    ∧ (unsubscribe cancel_ok (unsubscribe cancel_ok sample_subs "svc.echo").subs "svc.echo").result = Except.ok ()
    ∧ (alist_lookup sample_subs "svc.echo" = none →
        (unsubscribe cancel_ok sample_subs "svc.echo").subs = sample_subs
        ∧ (unsubscribe cancel_ok sample_subs "svc.echo").cancelled = [])
    ∧ (∀ h, alist_lookup sample_subs "svc.echo" = some h →
        (unsubscribe cancel_ok sample_subs "svc.echo").subs = alist_remove sample_subs "svc.echo"
        ∧ (unsubscribe cancel_ok sample_subs "svc.echo").cancelled = [h]) :=
  unsubscribe_absent_ok_idempotent cancel_ok sample_subs "svc.echo" (fun _ _ => rfl)

/-- Claim C7: `subscribe(subject, sender, receiver)` makes exactly one
`queue_subscribe` call whose queue group name equals the subject, and inserts
the returned handle (carrying the captured channel ends) into the table under
the subject; a second `subscribe` for the same subject silently overwrites
the stored handle. -/
theorem subscribe_queue_group_and_replace
    (qs1 qs2 : String → String → Except String Nat) (subs : Subs) (s : String)
    (snd1 rcv1 snd2 rcv2 : ChanHandle) (t1 t2 : Nat)
    (h1 : qs1 s s = Except.ok t1) (h2 : qs2 s s = Except.ok t2) :
    (subscribe qs1 subs s snd1 rcv1).calls = [(s, s)]
    ∧ (subscribe qs1 subs s snd1 rcv1).result = Except.ok ()
    ∧ alist_lookup (subscribe qs1 subs s snd1 rcv1).subs s = some ⟨t1, snd1, rcv1⟩
    ∧ (subscribe qs2 (subscribe qs1 subs s snd1 rcv1).subs s snd2 rcv2).result = Except.ok ()
    ∧ alist_lookup (subscribe qs2 (subscribe qs1 subs s snd1 rcv1).subs s snd2 rcv2).subs s
        = some ⟨t2, snd2, rcv2⟩ := by
  have ht1 : subscribe qs1 subs s snd1 rcv1 =
      ⟨Except.ok (), alist_insert subs s ⟨t1, snd1, rcv1⟩, [(s, s)]⟩ := by
    simp [subscribe, h1]
  have ht2 : subscribe qs2 (alist_insert subs s ⟨t1, snd1, rcv1⟩) s snd2 rcv2 =
      ⟨Except.ok (), alist_insert (alist_insert subs s ⟨t1, snd1, rcv1⟩) s ⟨t2, snd2, rcv2⟩,
        [(s, s)]⟩ := by
    simp [subscribe, h2]
  refine ⟨by simp [ht1], by simp [ht1], ?_, ?_, ?_⟩
  · simp [ht1, alist_lookup_insert_self]
  · simp [ht1, ht2]
  · simp [ht1, ht2, alist_lookup_insert_self]

/-- Claim C7 witness: two subscribes on `"svc.echo"` against transports
returning tokens 21 and 22. -/
theorem subscribe_queue_group_and_replace_witness :
    (subscribe qs_21 [] "svc.echo" 1 2).calls = [("svc.echo", "svc.echo")]
    ∧ (subscribe qs_21 [] "svc.echo" 1 2).result = Except.ok ()
    ∧ alist_lookup (subscribe qs_21 [] "svc.echo" 1 2).subs "svc.echo" = some ⟨21, 1, 2⟩
    ∧ (subscribe qs_22 (subscribe qs_21 [] "svc.echo" 1 2).subs "svc.echo" 3 4).result = Except.ok ()
    ∧ alist_lookup (subscribe qs_22 (subscribe qs_21 [] "svc.echo" 1 2).subs "svc.echo" 3 4).subs "svc.echo"
        = some ⟨22, 3, 4⟩ :=
  subscribe_queue_group_and_replace qs_21 qs_22 [] "svc.echo" 1 2 3 4 21 22 rfl rfl

/-- Claim C8: `add_route(id, …)` inserts or silently replaces the entry for
`id` (leaving other ids untouched), and `get_pair(id)` returns the stored
pair when present; `get_pair` takes the router immutably, so lookups cannot
mutate the table. -/
theorem router_add_route_get_pair
    (r : Router) (id id' : String) (p q : InvokerPair) :
    (Router.add_route r id p.1 p.2).get_pair id = some p
    ∧ (Router.add_route (Router.add_route r id p.1 p.2) id q.1 q.2).get_pair id = some q
    ∧ (id' ≠ id → (Router.add_route r id p.1 p.2).get_pair id' = r.get_pair id') := by
  refine ⟨?_, ?_, ?_⟩
  · simp [Router.add_route, Router.get_pair, alist_lookup_insert_self]
  · simp [Router.add_route, Router.get_pair, alist_lookup_insert_self]
  · intro h
    simp [Router.add_route, Router.get_pair, alist_lookup_insert_ne _ _ _ _ h]

/-- Claim C8 witness: evaluation on an empty router with ids `"a"`, `"b"`. -/
theorem router_add_route_get_pair_witness :
    (Router.add_route ⟨[]⟩ "a" 1 2).get_pair "a" = some (1, 2)
    ∧ (Router.add_route (Router.add_route ⟨[]⟩ "a" 1 2) "a" 3 4).get_pair "a" = some (3, 4)
    ∧ ("b" ≠ "a" → (Router.add_route ⟨[]⟩ "a" 1 2).get_pair "b" = Router.get_pair ⟨[]⟩ "b") :=
  router_add_route_get_pair ⟨[]⟩ "a" "b" (1, 2) (3, 4)

/-- Claim C9: at bus construction, an absent `LATTICE_CREDS_FILE` selects the
unauthenticated (anonymous) connection options, and a present one — any
value — selects options built from those credentials; in both cases the
fixed display name is set. -/
theorem credsfile_selects_auth (env : Env) :
    (env LATTICE_CREDSFILE_KEY = none →
      get_connection_opts env = ⟨ConnAuth.anonymous, some "waSCC Lattice"⟩)
    ∧ (∀ p, env LATTICE_CREDSFILE_KEY = some p →
      get_connection_opts env = ⟨ConnAuth.credentials p, some "waSCC Lattice"⟩) := by
  constructor
  · intro h
    simp [get_connection_opts, get_credsfile, h, ConnectionOptions.new,
      ConnectionOptions.with_name]
  · intro p h
    simp [get_connection_opts, get_credsfile, h, ConnectionOptions.with_credentials,
      ConnectionOptions.with_name]

/-- Claim C9 witness: anonymous options without the variable, credential
options with it. -/
theorem credsfile_selects_auth_witness :
    get_connection_opts env_unset = ⟨ConnAuth.anonymous, some "waSCC Lattice"⟩
    ∧ get_connection_opts env_good = ⟨ConnAuth.credentials "/tmp/creds", some "waSCC Lattice"⟩ :=
  ⟨(credsfile_selects_auth env_unset).1 rfl,
   (credsfile_selects_auth env_good).2 "/tmp/creds" (by decide)⟩

/-- Claim C10: when the transport's cancel fails during `unsubscribe`, the
error is returned but the subject's entry was already removed and is not
restored; a subsequent `unsubscribe` for the same subject returns ok without
contacting the transport. -/
theorem unsubscribe_cancel_error_not_atomic
    (cancel : SubHandle → Except String Unit) (subs : Subs) (s : String)
    (h : SubHandle) (e : String)
    (hl : alist_lookup subs s = some h) (hc : cancel h = Except.error e) :
    (unsubscribe cancel subs s).result = Except.error e
    ∧ (unsubscribe cancel subs s).subs = alist_remove subs s
    ∧ alist_lookup (unsubscribe cancel subs s).subs s = none
    ∧ (unsubscribe cancel subs s).cancelled = [h]
    ∧ (unsubscribe cancel (unsubscribe cancel subs s).subs s).result = Except.ok ()
    ∧ (unsubscribe cancel (unsubscribe cancel subs s).subs s).cancelled = []
    ∧ (unsubscribe cancel (unsubscribe cancel subs s).subs s).subs
        = (unsubscribe cancel subs s).subs := by
  have ht : unsubscribe cancel subs s = ⟨Except.error e, alist_remove subs s, [h]⟩ := by
    simp [unsubscribe, hl, hc]
  have hl2 := alist_lookup_remove_self subs s
  have ht2 : unsubscribe cancel (alist_remove subs s) s =
      ⟨Except.ok (), alist_remove subs s, []⟩ := by
    simp [unsubscribe, hl2]
  exact ⟨by simp [ht], by simp [ht], by simp [ht, hl2], by simp [ht],
    by simp [ht, ht2], by simp [ht, ht2], by simp [ht, ht2]⟩

/-- Claim C10 witness: evaluation on a one-entry table with a failing
transport cancel. -/
theorem unsubscribe_cancel_error_not_atomic_witness :
    (unsubscribe cancel_fail sample_subs "svc.echo").result = Except.error "io"
    ∧ (unsubscribe cancel_fail sample_subs "svc.echo").subs = alist_remove sample_subs "svc.echo"
    ∧ alist_lookup (unsubscribe cancel_fail sample_subs "svc.echo").subs "svc.echo" = none
    ∧ (unsubscribe cancel_fail sample_subs "svc.echo").cancelled = [sample_handle]
    ∧ (unsubscribe cancel_fail (unsubscribe cancel_fail sample_subs "svc.echo").subs "svc.echo").result = Except.ok ()
    ∧ (unsubscribe cancel_fail (unsubscribe cancel_fail sample_subs "svc.echo").subs "svc.echo").cancelled = []
    ∧ (unsubscribe cancel_fail (unsubscribe cancel_fail sample_subs "svc.echo").subs "svc.echo").subs
        = (unsubscribe cancel_fail sample_subs "svc.echo").subs :=
  unsubscribe_cancel_error_not_atomic cancel_fail sample_subs "svc.echo" sample_handle "io"
    (by decide) rfl

end WasccHost
